import Mathlib

/-!
Verification of the conditional file selector and error-handling helpers of
`vunit_helpers.py` (p2l2/VUnit-helpers).

The Python module is embedded shallowly:

* the filesystem is a parameter `G : String → List String` giving, for each
  glob pattern, its list of matches in discovery order;
* the active simulator (`VU.get_simulator_name()`) is a string parameter;
* the module logger is modelled as a list of emitted `LogEntry` records;
* Python runtime errors that the embedded code can raise (the `TypeError`
  from evaluating `x in None`) go through `Except PyError`;
* the external registration call `lib.add_source_files(file_names, ...)`
  receives exactly the first component of the returned pair, so "the list
  forwarded to the registration call" is that component.
-/

/-- Severity of a record emitted through the module-level logger
(`logging.getLogger` in `vunit_helpers.py`). -/
inductive LogLevel where
  | debug
  | warning
  | error
  deriving DecidableEq

/-- One record emitted through the module logger. -/
structure LogEntry where
  level : LogLevel
  msg : String
  deriving DecidableEq

/-- Python runtime errors the embedded code itself can raise.  The only one
reachable in `advanced_add_source_files` is the `TypeError` produced by
evaluating `x in None` (membership test against `None`). -/
inductive PyError where
  | typeError
  deriving DecidableEq

/-- The `File_pattern` object after `File_pattern.__init__` has run
(lines 165-177): `pattern` is the glob string, `include_simulators` the
allow-list (`when_simulator_is`), `exclude_simulators` the deny-list
(`when_simulator_is_not`); `none` models Python `None`. -/
structure File_pattern where
  pattern : String
  include_simulators : Option (List String)
  exclude_simulators : Option (List String)
  deriving DecidableEq

/-- An argument accepted by `File_pattern.__init__` for `when_simulator_is`
or `when_simulator_is_not`: `None`, a single string, or a list of strings. -/
inductive SimulatorArg where
  | noneA
  | strA (s : String)
  | listA (l : List String)
  deriving DecidableEq

/-- The normalisation `File_pattern.__init__` applies to each simulator
argument (lines 169-177): a plain string is wrapped in a one-element list,
anything else is stored as given. -/
def SimulatorArg.toField : SimulatorArg → Option (List String)
  | SimulatorArg.noneA => none
  | SimulatorArg.strA s => some [s]
  | SimulatorArg.listA l => some l

/-- `File_pattern.__init__(pattern, when_simulator_is, when_simulator_is_not)`
(lines 166-177). -/
def File_pattern.init (p : String) (when_simulator_is when_simulator_is_not : SimulatorArg) :
    File_pattern :=
  ⟨p, when_simulator_is.toField, when_simulator_is_not.toField⟩

/-- Python membership test `x in l` where `l` may be `None`: on a list it is
string membership, on `None` it raises `TypeError` (`argument of type
NoneType is not iterable`). -/
def pyIn (x : String) (l : Option (List String)) : Except PyError Bool :=
  match l with
  | none => Except.error PyError.typeError
  | some xs => Except.ok (xs.contains x)

/-- The eligibility condition of lines 204 and 218:

`((fp.include_simulators == None) or (sim in fp.include_simulators)) and
 ((fp.exclude_simulators == None) or not (sim in fp.include_simulators))`

with Python short-circuit evaluation.  Note that the second conjunct tests
membership in `include_simulators` (the allow-list), exactly as the source
does; when `include_simulators` is `None` and `exclude_simulators` is not,
that membership test raises `TypeError`. -/
def pattern_applies (sim : String) (fp : File_pattern) : Except PyError Bool :=
  let c1 : Bool :=
    match fp.include_simulators with
    | none => true
    | some l => l.contains sim
  if c1 then
    match fp.exclude_simulators with
    | none => Except.ok true
    | some _ =>
      match pyIn sim fp.include_simulators with
      | Except.error e => Except.error e
      | Except.ok m => Except.ok (!m)
  else
    Except.ok false

/-- The warning logged when an eligible pattern matched no file
(lines 206-208 and 220-222); `kindW` is the capitalised word `Include` or
`Exclude` of the message. -/
def emptyMatchWarning (kindW pat : String) : LogEntry :=
  ⟨LogLevel.warning, kindW ++ " file pattern " ++ pat ++ " did not match any file!"⟩

/-- The debug record logged when a pattern is skipped because of the active
simulator (lines 211-213 and 225-227); `kindD` is the lower-case word
`include` or `exclude` of the message. -/
def skipDebug (kindD pat sim : String) : LogEntry :=
  ⟨LogLevel.debug,
    kindD ++ " pattern " ++ pat ++ " was not processed due to the used simulator (" ++ sim ++ ")"⟩

/-- One of the two pattern loops of `advanced_add_source_files`
(lines 202-213 for includes, 215-227 for excludes): each pattern is tested
with the line-204/218 condition; an eligible pattern is glob-expanded, an
empty expansion logs a warning and contributes nothing, a non-empty one is
appended to the accumulated file list; an ineligible pattern logs a debug
record.  A `TypeError` raised by the condition aborts the loop. -/
def processPatterns (G : String → List String) (sim kindW kindD : String) :
    List File_pattern → Except PyError (List String × List LogEntry)
  | [] => Except.ok ([], [])
  | fp :: rest =>
    match pattern_applies sim fp with
    | Except.error e => Except.error e
    | Except.ok a =>
      let step : List String × List LogEntry :=
        if a then
          if G fp.pattern = [] then ([], [emptyMatchWarning kindW fp.pattern])
          else (G fp.pattern, [])
        else ([], [skipDebug kindD fp.pattern sim])
      match processPatterns G sim kindW kindD rest with
      | Except.error e => Except.error e
      | Except.ok (tl, tlogs) => Except.ok (step.1 ++ tl, step.2 ++ tlogs)

/-- `advanced_add_source_files` (lines 180-246): both pattern loops, the
filtering `file_names = [x for x in include_files if x not in exclude_files]`
of line 229, and the debug dump of lines 232-237.  The first component of a
successful result is the `file_names` list passed to
`lib.add_source_files(...)` at line 239; the second is everything logged. -/
def advanced_add_source_files (G : String → List String) (sim : String)
    (include_patterns : List File_pattern)
    (exclude_patterns : Option (List File_pattern)) :
    Except PyError (List String × List LogEntry) :=
  match processPatterns G sim "Include" "include" include_patterns with
  | Except.error e => Except.error e
  | Except.ok (include_files, ilogs) =>
    match (match exclude_patterns with
           | none => Except.ok ([], [])
           | some ps => processPatterns G sim "Exclude" "exclude" ps) with
    | Except.error e => Except.error e
    | Except.ok (exclude_files, elogs) =>
      let file_names := include_files.filter (fun x => !(exclude_files.contains x))
      let dlogs :=
        include_files.map (fun f => LogEntry.mk LogLevel.debug ("including " ++ f)) ++
        exclude_files.map (fun f => LogEntry.mk LogLevel.debug ("excluding " ++ f)) ++
        file_names.map (fun f => LogEntry.mk LogLevel.debug ("remaining " ++ f))
      Except.ok (file_names, ilogs ++ elogs ++ dlogs)

/-- Order-preserving concatenation of the glob expansions of the eligible
patterns, duplicates retained: the reference value the include loop
accumulates. -/
def includedConcat (G : String → List String) (sim : String) :
    List File_pattern → Except PyError (List String)
  | [] => Except.ok []
  | fp :: rest =>
    match pattern_applies sim fp with
    | Except.error e => Except.error e
    | Except.ok a =>
      match includedConcat G sim rest with
      | Except.error e => Except.error e
      | Except.ok tl => Except.ok ((if a then G fp.pattern else []) ++ tl)

/-- Order-preserving deduplication keeping the first occurrence of each
element. -/
def dedupFirst : List String → List String
  | [] => []
  | x :: xs => x :: (dedupFirst xs).filter (fun y => !(y == x))

/-- The result the spec claims for the selector with no exclude patterns:
the deduplicated, order-preserving union of each eligible include pattern's
glob expansion. -/
def claimedDedupUnion (G : String → List String) (sim : String)
    (pats : List File_pattern) : Except PyError (List String) :=
  match includedConcat G sim pats with
  | Except.error e => Except.error e
  | Except.ok l => Except.ok (dedupFirst l)

/-- The eligibility formula exactly as the spec words it: the allow-list is
unset or contains the context, and the deny-list is unset or the context is
not found in the allow-list field (membership in an unset list being
false). -/
def claimed_eligible (sim : String) (fp : File_pattern) : Bool :=
  (fp.include_simulators.isNone || (fp.include_simulators.getD []).contains sim)
    && (fp.exclude_simulators.isNone || !((fp.include_simulators.getD []).contains sim))

/-- `get_git_repo_root_path` (lines 30-46).  The exit code of
`call(["git", "branch"], ...)` and the stripped output of
`git rev-parse --show-toplevel` are parameters.  When the exit code is
non-zero the function returns `None` at line 39; the `logger.warning` call
at line 40 stands after that `return` and is unreachable, so nothing is
logged on that path. -/
def get_git_repo_root_path (branch_exit : Int) (toplevel : String) :
    Option String × List LogEntry :=
  if branch_exit ≠ 0 then
    (none, [])
  else
    (some toplevel, [⟨LogLevel.debug, "git repo path: " ++ toplevel⟩])

/-- The error record logged by `add_precompiled_uvvm_libraries` for an
unsupported simulator (lines 124-125). -/
def unsupported_simulator_error (sim : String) : LogEntry :=
  ⟨LogLevel.error,
    "Adding precompiled UVVM libraries for simulator " ++ sim ++
      " is not supported. You can use add_uvvm_sources() instead"⟩

/-- `add_precompiled_uvvm_libraries` (lines 98-125).  The build object is
modelled by the list of `VU.add_external_library(libname, location)` calls
the function performs, paired with everything logged: `modelsim` wires each
library from `root/lib/sim/lib`, `ghdl` from `root/lib/v08`, and any other
simulator logs an error and performs no call. -/
def add_precompiled_uvvm_libraries (sim : String) (used_libraries : List String)
    (root : String) : List (String × String) × List LogEntry :=
  let active := LogEntry.mk LogLevel.debug ("Active simulator=" ++ sim)
  if sim = "modelsim" then
    (used_libraries.map (fun lib => (lib, root ++ "/" ++ lib ++ "/sim/" ++ lib)),
     active :: used_libraries.map (fun lib =>
       LogEntry.mk LogLevel.debug
         ("adding library " ++ lib ++ " from " ++ (root ++ "/" ++ lib ++ "/sim/" ++ lib))))
  else if sim = "ghdl" then
    (used_libraries.map (fun lib => (lib, root ++ "/" ++ lib ++ "/v08")),
     active :: used_libraries.map (fun lib =>
       LogEntry.mk LogLevel.debug
         ("adding library " ++ lib ++ " from " ++ (root ++ "/" ++ lib ++ "/v08"))))
  else
    ([], [active, unsupported_simulator_error sim])

/-- Filtering against an empty exclude list keeps every element. -/
theorem filter_not_contains_nil (l : List String) :
    l.filter (fun x => !(([] : List String).contains x)) = l := by
  induction l with
  | nil => rfl
  | cons x xs ih => simp [List.filter_cons, ih]

/-- A successful run of a pattern loop accumulates exactly the
order-preserving concatenation of the eligible patterns' expansions. -/
theorem processPatterns_files (G : String → List String) (sim kindW kindD : String) :
    ∀ (ps : List File_pattern) (fs : List String) (logs : List LogEntry),
      processPatterns G sim kindW kindD ps = Except.ok (fs, logs) →
      includedConcat G sim ps = Except.ok fs := by
  intro ps
  induction ps with
  | nil =>
    intro fs logs h
    simp only [processPatterns, Except.ok.injEq, Prod.mk.injEq] at h
    simp [includedConcat, h.1]
  | cons fp rest ih =>
    intro fs logs h
    cases ha : pattern_applies sim fp with
    | error e => simp [processPatterns, ha] at h
    | ok a =>
      cases hr : processPatterns G sim kindW kindD rest with
      | error e => simp [processPatterns, ha, hr] at h
      | ok pr =>
        obtain ⟨tl, tlogs⟩ := pr
        simp only [processPatterns, ha, hr, Except.ok.injEq, Prod.mk.injEq] at h
        rw [includedConcat, ha, ih tl tlogs hr]
        refine congrArg Except.ok ?_
        rw [← h.1]
        by_cases hg : G fp.pattern = [] <;> cases a <;> simp [hg]

/-- Any match of an eligible pattern of a successfully processed loop is in
the accumulated file list. -/
theorem processPatterns_mem (G : String → List String) (sim kindW kindD : String) :
    ∀ (ps : List File_pattern) (fs : List String) (logs : List LogEntry)
      (fp : File_pattern) (p : String),
      processPatterns G sim kindW kindD ps = Except.ok (fs, logs) →
      fp ∈ ps → pattern_applies sim fp = Except.ok true → p ∈ G fp.pattern →
      p ∈ fs := by
  intro ps
  induction ps with
  | nil => intro fs logs fp p h hmem; exact absurd hmem (List.not_mem_nil fp)
  | cons q rest ih =>
    intro fs logs fp p h hmem hap hpg
    cases ha : pattern_applies sim q with
    | error e => simp [processPatterns, ha] at h
    | ok a =>
      cases hr : processPatterns G sim kindW kindD rest with
      | error e => simp [processPatterns, ha, hr] at h
      | ok pr =>
        obtain ⟨tl, tlogs⟩ := pr
        simp only [processPatterns, ha, hr, Except.ok.injEq, Prod.mk.injEq] at h
        rw [← h.1]
        rcases List.mem_cons.mp hmem with hq | hrest
        · subst hq
          rw [hap] at ha
          have haa : a = true := by
            cases ha
            rfl
          subst haa
          have hg : ¬ G fp.pattern = [] := by
            intro hnil
            rw [hnil] at hpg
            exact absurd hpg (List.not_mem_nil p)
          refine List.mem_append_left _ ?_
          simp [hg]
          exact hpg
        · exact List.mem_append_right _ (ih tl tlogs fp p hr hrest hap hpg)

/-- C1 counterexample: with two unrestricted include patterns whose
expansions share the file `a` and no exclude patterns, the list forwarded to
the registration call is `[a, a]`, while the deduplicated order-preserving
union claimed by the spec is `[a]`; the forwarded list is not deduplicated. -/
theorem claim_C1_counterexample :
    advanced_add_source_files (fun _ => ["a"]) "modelsim"
        [⟨"p", none, none⟩, ⟨"p", none, none⟩] none =
      Except.ok (["a", "a"],
        [⟨LogLevel.debug, "including a"⟩, ⟨LogLevel.debug, "including a"⟩,
         ⟨LogLevel.debug, "remaining a"⟩, ⟨LogLevel.debug, "remaining a"⟩]) ∧
    claimedDedupUnion (fun _ => ["a"]) "modelsim"
        [⟨"p", none, none⟩, ⟨"p", none, none⟩] = Except.ok ["a"] ∧
    (["a", "a"] : List String) ≠ ["a"] :=
  ⟨rfl, rfl, by decide⟩

/-- C1 (amended): with an empty or absent exclude-pattern list, the list
forwarded to the registration call equals the order-preserving concatenation
of each eligible include pattern's glob expansion, duplicates retained (the
line-229 comprehension removes excluded paths but never deduplicates). -/
theorem claim_C1_amended (G : String → List String) (sim : String)
    (pats : List File_pattern) (exc : Option (List File_pattern))
    (fs : List String) (logs : List LogEntry)
    (hexc : exc = none ∨ exc = some [])
    (h : advanced_add_source_files G sim pats exc = Except.ok (fs, logs)) :
    includedConcat G sim pats = Except.ok fs := by
  cases hi : processPatterns G sim "Include" "include" pats with
  | error e =>
    rcases hexc with he | he <;> subst he <;>
      simp [advanced_add_source_files, hi] at h
  | ok pri =>
    obtain ⟨incf, il⟩ := pri
    have hfs : fs = incf := by
      rcases hexc with he | he <;> subst he <;>
        simp only [advanced_add_source_files, hi, processPatterns,
          Except.ok.injEq, Prod.mk.injEq] at h <;>
        rw [← h.1, filter_not_contains_nil]
    rw [hfs]
    exact processPatterns_files G sim "Include" "include" pats incf il hi

/-- Witness for C1 (amended): one unrestricted pattern matching `a`, absent
exclude list; the forwarded list `[a]` is the concatenation of the eligible
expansions. -/
theorem claim_C1_amended_witness :
    includedConcat (fun _ => ["a"]) "modelsim" [⟨"p", none, none⟩] = Except.ok ["a"] :=
  claim_C1_amended (fun _ => ["a"]) "modelsim" [⟨"p", none, none⟩] none ["a"]
    [⟨LogLevel.debug, "including a"⟩, ⟨LogLevel.debug, "remaining a"⟩]
    (Or.inl rfl) rfl

/-- C2 counterexample: the pattern with deny-list `["ghdl"]` and unset
allow-list satisfies the claimed eligibility formula under context
`modelsim` (allow-list unset, context not found in the allow-list field),
yet the source condition raises `TypeError` (`"modelsim" in None`), so the
pattern's glob is never expanded and the selector run aborts instead of
treating the pattern as eligible. -/
theorem claim_C2_counterexample :
    claimed_eligible "modelsim" ⟨"*.vhd", none, some ["ghdl"]⟩ = true ∧
    pattern_applies "modelsim" ⟨"*.vhd", none, some ["ghdl"]⟩ =
      Except.error PyError.typeError ∧
    processPatterns (fun _ => ["f"]) "modelsim" "Include" "include"
        [⟨"*.vhd", none, some ["ghdl"]⟩] = Except.error PyError.typeError :=
  ⟨rfl, rfl, rfl⟩

/-- C2 (amended): the line-204/218 condition equals the claimed formula —
allow-list unset or containing the context, and deny-list unset or context
not found in the allow-list field — except when the deny-list is set while
the allow-list is unset, in which case the membership test against the
unset allow-list raises `TypeError` and the pattern is not processed. -/
theorem claim_C2_amended (sim : String) (fp : File_pattern) :
    pattern_applies sim fp =
      (if fp.include_simulators.isNone && fp.exclude_simulators.isSome then
        Except.error PyError.typeError
      else
        Except.ok (claimed_eligible sim fp)) := by
  obtain ⟨p, inc, exc⟩ := fp
  cases inc with
  | none => cases exc <;> simp [pattern_applies, claimed_eligible, pyIn]
  | some l =>
    cases exc <;> cases hc : l.contains sim <;>
      simp [pattern_applies, claimed_eligible, pyIn, hc] <;>
      by_cases hm : sim ∈ l <;> simp [hm]

/-- C3 (code bug): a `File_pattern` built with only `when_simulator_is_not`
set makes `advanced_add_source_files` itself raise `TypeError`: line 204
evaluates `"modelsim" in None` because the deny branch tests the unset
allow-list field.  The claim that the component raises no exception matches
the documented intent; the code is the slip. -/
theorem claim_C3_code_bug :
    advanced_add_source_files (fun _ => []) "modelsim"
        [File_pattern.init "*.vhd" SimulatorArg.noneA (SimulatorArg.strA "ghdl")] none =
      Except.error PyError.typeError :=
  rfl

/-- C4: any path matched by an eligible include pattern and also by an
eligible exclude pattern is absent from the list forwarded to the
registration call — the line-229 comprehension drops every member of the
exclude accumulation, so exclude always wins. -/
theorem claim_C4 (G : String → List String) (sim : String)
    (incs excs : List File_pattern) (fs : List String) (logs : List LogEntry)
    (p : String) (fpI fpE : File_pattern)
    (h : advanced_add_source_files G sim incs (some excs) = Except.ok (fs, logs))
    (hI : fpI ∈ incs) (haI : pattern_applies sim fpI = Except.ok true)
    (hpI : p ∈ G fpI.pattern)
    (hE : fpE ∈ excs) (haE : pattern_applies sim fpE = Except.ok true)
    (hpE : p ∈ G fpE.pattern) :
    p ∉ fs := by
  cases hi : processPatterns G sim "Include" "include" incs with
  | error e => simp [advanced_add_source_files, hi] at h
  | ok pri =>
    obtain ⟨incf, il⟩ := pri
    cases he : processPatterns G sim "Exclude" "exclude" excs with
    | error e => simp [advanced_add_source_files, hi, he] at h
    | ok pre =>
      obtain ⟨excf, el⟩ := pre
      simp only [advanced_add_source_files, hi, he, Except.ok.injEq, Prod.mk.injEq] at h
      have hpexc : p ∈ excf :=
        processPatterns_mem G sim "Exclude" "exclude" excs excf el fpE p he hE haE hpE
      rw [← h.1]
      intro hmem
      have hpred := (List.mem_filter.mp hmem).2
      simp only [Bool.not_eq_true'] at hpred
      have hc : excf.contains p = true := List.elem_eq_true_of_mem hpexc
      rw [hc] at hpred
      exact Bool.noConfusion hpred

/-- Witness for C4: pattern `p1` expands to `x, y`, exclude pattern `p2`
expands to `y`; the forwarded list is `[x]` and `y` is not in it. -/
theorem claim_C4_witness :
    ("y" : String) ∉ (["x"] : List String) :=
  claim_C4 (fun pat => if pat = "p1" then ["x", "y"] else ["y"]) "modelsim"
    [⟨"p1", none, none⟩] [⟨"p2", none, none⟩] ["x"]
    [⟨LogLevel.debug, "including x"⟩, ⟨LogLevel.debug, "including y"⟩,
     ⟨LogLevel.debug, "excluding y"⟩, ⟨LogLevel.debug, "remaining x"⟩]
    "y" ⟨"p1", none, none⟩ ⟨"p2", none, none⟩
    rfl (by decide) rfl (by decide) (by decide) rfl (by decide)

/-- C5: an include pattern whose allow-list names only other contexts
contributes no files (only the skip debug record), and a pattern with both
lists unset is eligible under every context and contributes exactly its
glob expansion. -/
theorem claim_C5 (G : String → List String) (sim kindW kindD p : String)
    (fp : File_pattern) (l : List String) :
    (fp.include_simulators = some l → sim ∉ l →
      processPatterns G sim kindW kindD [fp] =
        Except.ok ([], [skipDebug kindD fp.pattern sim])) ∧
    (∃ logs, processPatterns G sim kindW kindD [⟨p, none, none⟩] =
      Except.ok (G p, logs)) := by
  constructor
  · intro h1 h2
    have hc : l.contains sim = false := by
      cases hcc : l.contains sim
      · rfl
      · exact absurd (List.mem_of_elem_eq_true hcc) h2
    have hpa : pattern_applies sim fp = Except.ok false := by
      simp [pattern_applies, h1, hc]
      intro hm
      exact absurd hm h2
    simp [processPatterns, hpa]
  · have hpa : pattern_applies sim ⟨p, none, none⟩ = Except.ok true := rfl
    by_cases hg : G p = []
    · exact ⟨[emptyMatchWarning kindW p], by simp [processPatterns, hpa, hg]⟩
    · exact ⟨[], by simp [processPatterns, hpa, hg]⟩

/-- Witness for C5: context `modelsim` against an allow-list naming only
`ghdl`, and an unrestricted pattern matching `f`. -/
theorem claim_C5_witness :
    (processPatterns (fun _ => ["f"]) "modelsim" "Include" "include"
        [⟨"p", some ["ghdl"], none⟩] =
      Except.ok ([], [skipDebug "include" "p" "modelsim"])) ∧
    (∃ logs, processPatterns (fun _ => ["f"]) "modelsim" "Include" "include"
        [⟨"q", none, none⟩] = Except.ok (["f"], logs)) :=
  ⟨(claim_C5 (fun _ => ["f"]) "modelsim" "Include" "include" "q"
      ⟨"p", some ["ghdl"], none⟩ ["ghdl"]).1 rfl (by decide),
   (claim_C5 (fun _ => ["f"]) "modelsim" "Include" "include" "q"
      ⟨"p", some ["ghdl"], none⟩ ["ghdl"]).2⟩

/-- C6: a pattern with both the allow-list and the deny-list set is never
eligible — line 204 then requires the context to be in the allow-list and
not in the allow-list at once — so it contributes no files under any
context. -/
theorem claim_C6 (G : String → List String) (sim kindW kindD : String)
    (fp : File_pattern) (la ld : List String)
    (h1 : fp.include_simulators = some la) (h2 : fp.exclude_simulators = some ld) :
    pattern_applies sim fp = Except.ok false ∧
    processPatterns G sim kindW kindD [fp] =
      Except.ok ([], [skipDebug kindD fp.pattern sim]) := by
  have hpa : pattern_applies sim fp = Except.ok false := by
    cases hc : la.contains sim <;> simp [pattern_applies, pyIn, h1, h2, hc]
  exact ⟨hpa, by simp [processPatterns, hpa]⟩

/-- Witness for C6: allow-list `[modelsim]` and deny-list `[ghdl]` both set;
under context `modelsim` (which the allow-list even contains) the pattern is
not eligible and contributes nothing. -/
theorem claim_C6_witness :
    pattern_applies "modelsim" ⟨"p", some ["modelsim"], some ["ghdl"]⟩ =
        Except.ok false ∧
    processPatterns (fun _ => ["f"]) "modelsim" "Include" "include"
        [⟨"p", some ["modelsim"], some ["ghdl"]⟩] =
      Except.ok ([], [skipDebug "include" "p" "modelsim"]) :=
  claim_C6 (fun _ => ["f"]) "modelsim" "Include" "include"
    ⟨"p", some ["modelsim"], some ["ghdl"]⟩ ["modelsim"] ["ghdl"] rfl rfl

/-- C7: inserting an eligible pattern whose expansion is empty anywhere in a
successfully processed pattern list leaves the accumulated files unchanged,
keeps the run successful (so the remaining patterns and the final
registration call proceed), and adds the empty-match record, which is logged
at warning level, not error level. -/
theorem claim_C7 (G : String → List String) (sim kindW kindD : String)
    (fp : File_pattern) (ps₁ ps₂ : List File_pattern)
    (fs : List String) (logs : List LogEntry)
    (h1 : pattern_applies sim fp = Except.ok true)
    (h2 : G fp.pattern = [])
    (h3 : processPatterns G sim kindW kindD (ps₁ ++ ps₂) = Except.ok (fs, logs)) :
    ∃ logs2,
      processPatterns G sim kindW kindD (ps₁ ++ fp :: ps₂) = Except.ok (fs, logs2) ∧
      emptyMatchWarning kindW fp.pattern ∈ logs2 ∧
      (emptyMatchWarning kindW fp.pattern).level = LogLevel.warning := by
  induction ps₁ generalizing fs logs with
  | nil =>
    refine ⟨emptyMatchWarning kindW fp.pattern :: logs, ?_, by simp, rfl⟩
    simp only [List.nil_append] at h3 ⊢
    simp [processPatterns, h1, h2, h3]
  | cons q t ih =>
    rw [List.cons_append] at h3
    cases ha : pattern_applies sim q with
    | error e => simp [processPatterns, ha] at h3
    | ok a =>
      cases hr : processPatterns G sim kindW kindD (t ++ ps₂) with
      | error e => simp [processPatterns, ha, hr] at h3
      | ok pr =>
        obtain ⟨tl, tlogs⟩ := pr
        simp only [processPatterns, ha, hr, Except.ok.injEq, Prod.mk.injEq] at h3
        obtain ⟨logs2, hp, hmem, hlev⟩ := ih tl tlogs hr
        refine ⟨(if a then
            (if G q.pattern = [] then ([], [emptyMatchWarning kindW q.pattern])
             else (G q.pattern, []))
          else ([], [skipDebug kindD q.pattern sim])).2 ++ logs2, ?_, ?_, rfl⟩
        · rw [List.cons_append, processPatterns, ha, hp, ← h3.1]
        · exact List.mem_append_right _ hmem

/-- Witness for C7: an unrestricted pattern with empty expansion inserted
into the empty pattern list; the run still succeeds with no files and the
warning-level empty-match record is logged. -/
theorem claim_C7_witness :
    ∃ logs2,
      processPatterns (fun _ => []) "modelsim" "Include" "include"
          (([] : List File_pattern) ++ ⟨"p", none, none⟩ :: []) =
        Except.ok ([], logs2) ∧
      emptyMatchWarning "Include" "p" ∈ logs2 ∧
      (emptyMatchWarning "Include" "p").level = LogLevel.warning :=
  claim_C7 (fun _ => []) "modelsim" "Include" "include" ⟨"p", none, none⟩ [] []
    [] [] rfl rfl rfl

/-- C8: whenever the branch-list check exits non-zero (the current directory
is not inside a git repository), `get_git_repo_root_path` returns `None`; the
function is total in the embedding, so it raises nothing on this path. -/
theorem claim_C8 (branch_exit : Int) (toplevel : String)
    (h : branch_exit ≠ 0) :
    get_git_repo_root_path branch_exit toplevel = (none, []) := by
  simp [get_git_repo_root_path, h]

/-- Witness for C8: exit code 1. -/
theorem claim_C8_witness :
    get_git_repo_root_path 1 "/repo" = (none, []) :=
  claim_C8 1 "/repo" (by decide)

/-- C9 (code bug): in the not-a-repository case the function returns `None`
but logs nothing at all — the `logger.warning` call at line 40 stands after
the `return None` of line 39 and never executes — whereas the claim says a
warning is logged alongside the null result. -/
theorem claim_C9_code_bug :
    (get_git_repo_root_path 128 "/repo").1 = none ∧
    (get_git_repo_root_path 128 "/repo").2.filter
        (fun e => e.level == LogLevel.warning) = [] :=
  ⟨rfl, rfl⟩

/-- C10: for any simulator name other than `modelsim` and `ghdl`,
`add_precompiled_uvvm_libraries` performs no `add_external_library` call
(the build object's library state is unchanged) and logs the
unsupported-simulator record at error level. -/
theorem claim_C10 (sim : String) (used_libraries : List String) (root : String)
    (h1 : sim ≠ "modelsim") (h2 : sim ≠ "ghdl") :
    (add_precompiled_uvvm_libraries sim used_libraries root).1 = [] ∧
    unsupported_simulator_error sim ∈
      (add_precompiled_uvvm_libraries sim used_libraries root).2 ∧
    (unsupported_simulator_error sim).level = LogLevel.error := by
  refine ⟨?_, ?_, rfl⟩ <;> simp [add_precompiled_uvvm_libraries, h1, h2]

/-- Witness for C10: simulator `nvc` with one library requested; no external
library is wired and the error record is logged. -/
theorem claim_C10_witness :
    (add_precompiled_uvvm_libraries "nvc" ["uvvm_util"] "/r").1 = [] ∧
    unsupported_simulator_error "nvc" ∈
      (add_precompiled_uvvm_libraries "nvc" ["uvvm_util"] "/r").2 ∧
    (unsupported_simulator_error "nvc").level = LogLevel.error :=
  claim_C10 "nvc" ["uvvm_util"] "/r" (by decide) (by decide)
